import Mathlib

/-!
Verification of the `structuralglass` package core, shallowly embedded from
`src/structuralglass`.  Conventions of the embedding:

* pint quantities are modelled by exact rationals in canonical units:
  lengths in millimetres, pressures in megapascals, temperatures in degrees
  Celsius, durations in seconds.  Exact rational arithmetic stands in for the
  float arithmetic of the source.
* Python dicts keyed by object identity are modelled by association lists
  keyed by a natural-number identity; `dict.__setitem__` keeps the position of
  an existing key and appends a fresh one, which `dictSet` mirrors.
* Functions that can raise are modelled in `Except`; the `String` payload is
  the message of the raised exception (a bare exception-class name such as
  "DimensionalityError" stands for an exception whose message is irrelevant).
-/

/-- Python dict association-list lookup (`d[k]`, `None` for a KeyError). -/
def qlookup : List (ℚ × ℚ) → ℚ → Option ℚ
  | [], _ => none
  | (k, v) :: rest, q => if k = q then some v else qlookup rest q

/-- Python dict update `d[k] = v`: replace in place if the key is present,
append otherwise. -/
def dictSet : List (ℕ × ℚ) → ℕ → ℚ → List (ℕ × ℚ)
  | [], k, v => [(k, v)]
  | (k', v') :: rest, k, v =>
    if k' = k then (k, v) :: rest else (k', v') :: dictSet rest k v

/-- Metric nominal-to-minimum thickness table of `layers.py`
(`t_min_lookup_metric`); keys and values in mm. -/
def t_min_lookup_metric : List (ℚ × ℚ) :=
  [(2, 1.80), (2.5, 2.16), (2.7, 2.59), (3, 2.92), (4, 3.78), (5, 4.57),
   (6, 5.56), (8, 7.42), (10, 9.02), (12, 11.91), (16, 15.09), (19, 18.26),
   (22, 21.44), (25, 24.61)]

/-- Imperial nominal-to-minimum thickness table of `layers.py`
(`t_min_lookup_imperial`); keys in inches, values in mm. -/
def t_min_lookup_imperial : List (ℚ × ℚ) :=
  [(0.09375, 2.16), (0.125, 2.92), (0.15625, 3.78), (0.1875, 4.57),
   (0.25, 5.56), (0.3125, 7.42), (0.375, 9.02), (0.5, 11.91), (0.625, 15.09),
   (0.75, 18.26), (0.875, 21.44), (1, 24.61)]

/-- Errors raised by the `GlassPly` operations of `layers.py`.  The
`nominalNotFound` payload is the offending nominal thickness (in mm), which
the Python code formats into the ValueError message "Could not find the
nominal thickness of ... in the nominal thickness lookup.". -/
inductive GlassErr where
  | valueError (msg : String)
  | nominalNotFound (t_nom : ℚ)
deriving DecidableEq, Repr

/-- `GlassPly._find_min_from_nom`: consult the metric table with the value in
mm; on a KeyError consult the imperial table with the value in inches
(1 inch = 25.4 mm); on a second KeyError raise the naming ValueError.  The
argument is the nominal thickness in mm. -/
def find_min_from_nom (t_nom : ℚ) : Except GlassErr ℚ :=
  match qlookup t_min_lookup_metric t_nom with
  | some v => .ok v
  | none =>
    match qlookup t_min_lookup_imperial (t_nom / (254 / 10)) with
    | some v => .ok v
    | none => .error (.nominalNotFound t_nom)

/-- A glass ply of `layers.py`: elastic modulus `E` (MPa), minimum allowable
thickness `t_min` (mm), optional nominal thickness `t_nom` (mm). -/
structure GlassPly where
  E : ℚ
  t_min : ℚ
  t_nom : Option ℚ
deriving DecidableEq, Repr

/-- `GlassPly.__init__`: after the dimension checks it rejects a negative
`t_min` and then assigns `self.E = 71.7 * ureg.GPa` (= 71700 MPa) outright;
the constructor parameter `E` is never read. -/
def mkGlassPly (t_min : ℚ) (t_nom : Option ℚ) (E : ℚ) : Except GlassErr GlassPly :=
  if t_min < 0 then .error (.valueError "Actual thickness cannot be less than zero.")
  else .ok { E := 71700, t_min := t_min, t_nom := t_nom }

/-- `GlassPly.from_nominal_thickness`: look the minimum thickness up and call
the constructor with the default `E` argument (71.7 GPa). -/
def from_nominal_thickness (t_nom : ℚ) : Except GlassErr GlassPly :=
  match find_min_from_nom t_nom with
  | .error e => .error e
  | .ok t_min => mkGlassPly t_min (some t_nom) 71700

/-- `GlassPly.from_actual_thickness`: call the constructor with `t_nom = None`
and the default `E` argument (71.7 GPa). -/
def from_actual_thickness (t_act : ℚ) : Except GlassErr GlassPly :=
  mkGlassPly t_act none 71700

/-- The `GlassPly.E` property setter: reject a negative value, store the rest. -/
def GlassPly.setE (p : GlassPly) (v : ℚ) : Except GlassErr GlassPly :=
  if v < 0 then .error (.valueError "Elastic modulus cannot be less than zero.")
  else .ok { p with E := v }

/-- C8: the nominal lookup consults the metric table first and the imperial
table second, returns the exact tabulated minimum for every tabulated nominal,
and otherwise fails with a lookup error carrying the offending nominal. -/
theorem C8_nominal_lookup :
    (∀ p ∈ t_min_lookup_metric, find_min_from_nom p.1 = .ok p.2) ∧
    (∀ p ∈ t_min_lookup_imperial, find_min_from_nom (p.1 * (254 / 10)) = .ok p.2) ∧
    (∀ q : ℚ, qlookup t_min_lookup_metric q = none →
      qlookup t_min_lookup_imperial (q / (254 / 10)) = none →
      find_min_from_nom q = .error (.nominalNotFound q)) := by
  refine ⟨?_, ?_, ?_⟩
  · intro p hp
    fin_cases hp <;>
      norm_num [find_min_from_nom, qlookup, t_min_lookup_metric, t_min_lookup_imperial]
  · intro p hp
    fin_cases hp <;>
      norm_num [find_min_from_nom, qlookup, t_min_lookup_metric, t_min_lookup_imperial]
  · intro q h1 h2
    simp [find_min_from_nom, h1, h2]

/-- Witness for C8 at 6 mm, 0.375 in and an untabulated 7 mm. -/
theorem C8_nominal_lookup_witness :
    find_min_from_nom 6 = .ok 5.56 ∧
    find_min_from_nom (0.375 * (254 / 10)) = .ok 9.02 ∧
    find_min_from_nom 7 = .error (.nominalNotFound 7) :=
  ⟨C8_nominal_lookup.1 (6, 5.56) (by norm_num [t_min_lookup_metric]),
   C8_nominal_lookup.2.1 (0.375, 9.02) (by norm_num [t_min_lookup_imperial]),
   C8_nominal_lookup.2.2 7 (by norm_num [qlookup, t_min_lookup_metric])
     (by norm_num [qlookup, t_min_lookup_imperial])⟩

/-- C10: every successfully constructed `GlassPly` (directly or through the
two class methods) has elastic modulus 71.7 GPa (= 71700 MPa) no matter what
`E` argument was passed, and only the `E` property setter changes it. -/
theorem C10_constructor_ignores_E :
    (∀ t_min t_nom E p, mkGlassPly t_min t_nom E = .ok p → p.E = 71700) ∧
    (∀ t_nom p, from_nominal_thickness t_nom = .ok p → p.E = 71700) ∧
    (∀ t_act p, from_actual_thickness t_act = .ok p → p.E = 71700) ∧
    (∀ p v p', GlassPly.setE p v = .ok p' → p'.E = v) := by
  refine ⟨?_, ?_, ?_, ?_⟩
  · intro t_min t_nom E p h
    unfold mkGlassPly at h
    split at h
    · exact absurd h (by simp)
    · cases h; rfl
  · intro t_nom p h
    unfold from_nominal_thickness at h
    split at h
    · exact absurd h (by simp)
    · unfold mkGlassPly at h
      split at h
      · exact absurd h (by simp)
      · cases h; rfl
  · intro t_act p h
    unfold from_actual_thickness mkGlassPly at h
    split at h
    · exact absurd h (by simp)
    · cases h; rfl
  · intro p v p' h
    unfold GlassPly.setE at h
    split at h
    · exact absurd h (by simp)
    · cases h; rfl

/-- Witness for C10: construct with the absurd argument E = 1 MPa; the result
still has 71700 MPa, and the setter then moves it to 70000 MPa. -/
theorem C10_constructor_ignores_E_witness :
    mkGlassPly 5.56 none 1 = .ok ⟨71700, 5.56, none⟩ ∧
    (⟨71700, 5.56, none⟩ : GlassPly).E = 71700 ∧
    GlassPly.setE ⟨71700, 5.56, none⟩ 70000 = .ok ⟨70000, 5.56, none⟩ ∧
    (⟨70000, 5.56, none⟩ : GlassPly).E = 70000 :=
  ⟨by norm_num [mkGlassPly],
   C10_constructor_ignores_E.1 5.56 none 1 _ (by norm_num [mkGlassPly]),
   by norm_num [GlassPly.setE],
   C10_constructor_ignores_E.2.2.2 ⟨71700, 5.56, none⟩ 70000 _
     (by norm_num [GlassPly.setE])⟩

/-- Product-table lookup keyed by (temperature in degC, duration in s):
Python dict indexing, `none` for a KeyError. -/
def tlookup : List ((ℚ × ℚ) × ℚ) → ℚ × ℚ → Option ℚ
  | [], _ => none
  | (k, v) :: rest, q => if k = q then some v else tlookup rest q

/-- An interlayer of `layers.py`: thickness `t` (mm), a fixed shear modulus
`G_static` (MPa, the Python `_G`) or a table `G_table` keyed by
(temperature degC, duration s) with values in MPa, and the mutable reference
`temperature` / `duration` state. -/
structure Interlayer where
  t : ℚ
  G_static : Option ℚ
  G_table : Option (List ((ℚ × ℚ) × ℚ))
  temperature : Option ℚ
  duration : Option ℚ
deriving DecidableEq, Repr

/-- `Interlayer.__init__`: exactly one of G and G_table must be given. -/
def mkInterlayer (t : ℚ) (G : Option ℚ) (G_table : Option (List ((ℚ × ℚ) × ℚ))) :
    Except String Interlayer :=
  if G = none ∧ G_table = none then
    .error "Either G or G_table must be provided."
  else if G ≠ none ∧ G_table ≠ none then
    .error "Only one of G or G_table must be provided."
  else
    .ok { t := t, G_static := G, G_table := G_table, temperature := none, duration := none }

/-- The inner `call_G_interp` closure built in `Interlayer.__init__`: its
Python body is the bare expression `G_interp(x, y)` with no return statement,
so whatever the scipy interpolant computes is discarded and the closure
returns None for every input. -/
def call_G_interp (_temperature _duration : ℚ) : Option ℚ :=
  none

/-- The `Interlayer.G` property getter: a fixed value is returned directly;
otherwise the table is indexed with the key (temperature, duration) — a key
containing an unset (None) reference always misses — and on a KeyError either
the "not test" ValueError is raised (a reference is unset) or the result of
`call_G_interp` is used, whose missing return makes the subscript `[0]` on
its None result raise a TypeError. -/
def Interlayer.G (il : Interlayer) : Except String ℚ :=
  match il.G_static with
  | some g => .ok g
  | none =>
    match il.G_table with
    | none => .error "TypeError: NoneType object is not subscriptable"
    | some tbl =>
      match il.temperature, il.duration with
      | some T, some D =>
        match tlookup tbl (T, D) with
        | some g => .ok g
        | none =>
          match call_G_interp T D with
          | some g => .ok g
          | none => .error "TypeError: call_G_interp returned None"
      | _, _ => .error "Reference temperature and/or duration not test."

/-- A rectangular 2 x 2 excerpt of the registered "PVB NCSEA" product table:
temperatures 20 and 30 degC, durations 3 s and 1 min, shear moduli in MPa. -/
def pvb_test_table : List ((ℚ × ℚ) × ℚ) :=
  [((20, 3), 8.060), ((30, 3), 0.971), ((20, 60), 1.640), ((30, 60), 0.753)]

/-- C4: reading `G` returns a fixed value directly, returns the exact table
entry at a tabulated (temperature, duration), and fails with the
reference-not-set ValueError when a reference is missing — but at a
non-tabulated point, where the docstring promises linear interpolation within
the table domain, it fails with a TypeError because `call_G_interp` never
returns its interpolated value. -/
theorem C4_G_interpolation_broken :
    (⟨1.52, some 0.44, none, none, none⟩ : Interlayer).G = .ok 0.44 ∧
    (⟨1.52, none, some pvb_test_table, some 20, some 3⟩ : Interlayer).G = .ok 8.060 ∧
    (⟨1.52, none, some pvb_test_table, none, some 3⟩ : Interlayer).G =
      .error "Reference temperature and/or duration not test." ∧
    (⟨1.52, none, some pvb_test_table, some 25, some 30⟩ : Interlayer).G =
      .error "TypeError: call_G_interp returned None" := by
  refine ⟨rfl, ?_, rfl, ?_⟩ <;>
    norm_num [Interlayer.G, tlookup, pvb_test_table, call_G_interp]

/-- A layer in a laminate list: either a glass ply or an interlayer
(`isinstance` dispatch in the source becomes constructor dispatch). -/
inductive Layer where
  | glass (p : GlassPly)
  | interlayer (il : Interlayer)
deriving DecidableEq, Repr

/-- `ShearTransferCoefMethod._validate`: `valid` becomes True exactly when the
list is [GlassPly, Interlayer, GlassPly]; in that case the source compares the
two glass moduli and, when they differ, assigns the message "The plys must
have the same elastic modulus." WITHOUT setting `valid` back to False — so the
first component is `true` in both branches below, faithfully to the code. -/
def stc_validate (plys : List Layer) : Bool × String :=
  match plys with
  | [Layer.glass p0, Layer.interlayer _, Layer.glass p2] =>
    if p0.E = p2.E then (true, "")
    else (true, "The plys must have the same elastic modulus.")
  | _ => (false, "Method is only valid a list of [GlassPly, Interlayer, GlassPly].")

/-- The `GlassLiteEquiv.ply` setter as run by `ShearTransferCoefMethod`:
raise a ValueError built from the validation message when `valid` is False,
otherwise accept the list (after which the package modulus and the equivalent
thicknesses are computed). -/
def stc_set_ply (plys : List Layer) : Except String (List Layer) :=
  let vm := stc_validate plys
  if vm.1 then .ok plys else .error ("Ply validation failed: " ++ vm.2)

/-- C3: the three malformed compositions all fail validation with the
composition message, but a [GlassPly, Interlayer, GlassPly] list whose glass
plies have different elastic moduli is ACCEPTED: `_validate` prepares the
unequal-modulus message yet leaves `valid` True, so the ply setter goes on to
compute a result, contrary to the claim and to the method docstring. -/
theorem C3_unequal_modulus_accepted :
    stc_validate [.glass ⟨71700, 7.42, none⟩, .glass ⟨71700, 5.56, none⟩] =
      (false, "Method is only valid a list of [GlassPly, Interlayer, GlassPly].") ∧
    stc_validate [.glass ⟨71700, 7.42, none⟩, .glass ⟨71700, 5.56, none⟩,
        .interlayer ⟨1.52, some 0.44, none, none, none⟩] =
      (false, "Method is only valid a list of [GlassPly, Interlayer, GlassPly].") ∧
    stc_validate [.glass ⟨71700, 7.42, none⟩, .interlayer ⟨1.52, some 0.44, none, none, none⟩,
        .glass ⟨71700, 5.56, none⟩, .interlayer ⟨1.52, some 0.44, none, none, none⟩,
        .glass ⟨71700, 5.56, none⟩] =
      (false, "Method is only valid a list of [GlassPly, Interlayer, GlassPly].") ∧
    stc_set_ply [.glass ⟨71700, 7.42, none⟩, .glass ⟨71700, 5.56, none⟩] =
      .error "Ply validation failed: Method is only valid a list of [GlassPly, Interlayer, GlassPly]." ∧
    stc_validate [.glass ⟨71700, 7.42, none⟩, .interlayer ⟨1.52, some 0.44, none, none, none⟩,
        .glass ⟨70000, 5.56, none⟩] =
      (true, "The plys must have the same elastic modulus.") ∧
    stc_set_ply [.glass ⟨71700, 7.42, none⟩, .interlayer ⟨1.52, some 0.44, none, none, none⟩,
        .glass ⟨70000, 5.56, none⟩] =
      .ok [.glass ⟨71700, 7.42, none⟩, .interlayer ⟨1.52, some 0.44, none, none, none⟩,
        .glass ⟨70000, 5.56, none⟩] := by
  refine ⟨rfl, rfl, rfl, rfl, ?_, ?_⟩ <;>
    norm_num [stc_validate, stc_set_ply]

/-- One linear segment of `scipy.interpolate.interp1d`. -/
def interpSeg (p q : ℚ × ℚ) (x : ℚ) : ℚ :=
  p.2 + (x - p.1) * (q.2 - p.2) / (q.1 - p.1)

/-- Piecewise-linear `scipy.interpolate.interp1d` over knots with strictly
increasing x; an input outside the knot range raises a ValueError (none). -/
def interp1d : List (ℚ × ℚ) → ℚ → Option ℚ
  | [], _ => none
  | [p], x => if x = p.1 then some p.2 else none
  | p :: q :: rest, x =>
    if x < p.1 then none
    else if x ≤ q.1 then some (interpSeg p q x)
    else interp1d (q :: rest) x

/-- The aspect-ratio knots of `Roarks4side.__init__`; the last knot is the
float literal 1e16 standing in for an infinite aspect ratio. -/
def roarks_ratios : List ℚ :=
  [1, 1.2, 1.4, 1.6, 1.8, 2, 3, 4, 5, 10000000000000000]

/-- Roark beta coefficients (maximum stress) of `Roarks4side.__init__`. -/
def roarks_beta : List ℚ :=
  [0.2874, 0.3762, 0.453, 0.5172, 0.5688, 0.6102, 0.7134, 0.741, 0.7476, 0.75]

/-- Roark alpha coefficients (maximum deflection) of `Roarks4side.__init__`. -/
def roarks_alpha : List ℚ :=
  [0.044, 0.0616, 0.077, 0.0906, 0.1017, 0.111, 0.1335, 0.14, 0.1417, 0.1421]

/-- Roark gamma coefficients (maximum edge reaction) of `Roarks4side.__init__`. -/
def roarks_gamma : List ℚ :=
  [0.42, 0.455, 0.478, 0.491, 0.499, 0.503, 0.505, 0.502, 0.501, 0.5]

/-- The `self._beta` interpolant of `Roarks4side`. -/
def betaOf (r : ℚ) : Option ℚ := interp1d (roarks_ratios.zip roarks_beta) r

/-- The `self._alpha` interpolant of `Roarks4side`. -/
def alphaOf (r : ℚ) : Option ℚ := interp1d (roarks_ratios.zip roarks_alpha) r

/-- The `self._gamma` interpolant of `Roarks4side`. -/
def gammaOf (r : ℚ) : Option ℚ := interp1d (roarks_ratios.zip roarks_gamma) r

/-- The state of a `helpers.Roarks4side` plate: dimensions and thickness in
mm, elastic modulus in MPa. -/
structure Roarks4side where
  dim_x : ℚ
  dim_y : ℚ
  E : ℚ
  t : ℚ
deriving DecidableEq, Repr

/-- The `dim_x` property setter of `Roarks4side`. -/
def Roarks4side.setDimX (r : Roarks4side) (v : ℚ) : Except String Roarks4side :=
  if v < 0 then .error "Dimensions must be greater than zero."
  else .ok { r with dim_x := v }

/-- The `dim_y` property setter of `Roarks4side`. -/
def Roarks4side.setDimY (r : Roarks4side) (v : ℚ) : Except String Roarks4side :=
  if v < 0 then .error "Dimensions must be greater than zero."
  else .ok { r with dim_y := v }

/-- The `t` property setter of `Roarks4side`. -/
def Roarks4side.setT (r : Roarks4side) (v : ℚ) : Except String Roarks4side :=
  if v < 0 then .error "Thickness must be greater than zero."
  else .ok { r with t := v }

/-- The `E` property setter of `Roarks4side`. -/
def Roarks4side.setE (r : Roarks4side) (v : ℚ) : Except String Roarks4side :=
  if v < 0 then .error "Elastic modulus must be greater than zero."
  else .ok { r with E := v }

/-- The larger plate dimension (`self._a` after `_reset_ratio`). -/
def Roarks4side.a (r : Roarks4side) : ℚ :=
  if r.dim_x > r.dim_y then r.dim_x else r.dim_y

/-- The smaller plate dimension (`self._b` after `_reset_ratio`). -/
def Roarks4side.b (r : Roarks4side) : ℚ :=
  if r.dim_x > r.dim_y then r.dim_y else r.dim_x

/-- The aspect ratio (`self._ratio` after `_reset_ratio`). -/
def Roarks4side.ratio (r : Roarks4side) : ℚ := r.a / r.b

/-- Physical dimensions checked by `pint.UnitRegistry.check` decorators. -/
inductive Dim where
  | length
  | pressure
deriving DecidableEq, Repr

/-- A pint quantity at a `ureg.check` boundary: canonical magnitude plus its
physical dimension. -/
structure Qty where
  val : ℚ
  dim : Dim
deriving DecidableEq, Repr

/-- `Roarks4side.__init__(dim_x, dim_y, E, t)` — note the parameter order of
the source.  The `ureg.check(None, [length], [length], [pressure], [length])`
decorator raises a DimensionalityError before the body runs if any argument
has the wrong dimension; the body then runs the four property setters in the
order dim_x, dim_y, t, E and finally `_reset_ratio`, whose division raises a
ZeroDivisionError when the smaller dimension is zero. -/
def mkRoarks4side (dim_x dim_y E t : Qty) : Except String Roarks4side :=
  if dim_x.dim ≠ Dim.length ∨ dim_y.dim ≠ Dim.length ∨
      E.dim ≠ Dim.pressure ∨ t.dim ≠ Dim.length then
    .error "DimensionalityError"
  else if dim_x.val < 0 then .error "Dimensions must be greater than zero."
  else if dim_y.val < 0 then .error "Dimensions must be greater than zero."
  else if t.val < 0 then .error "Thickness must be greater than zero."
  else if E.val < 0 then .error "Elastic modulus must be greater than zero."
  else if (if dim_x.val > dim_y.val then dim_y.val else dim_x.val) = 0 then
    .error "ZeroDivisionError"
  else .ok { dim_x := dim_x.val, dim_y := dim_y.val, E := E.val, t := t.val }

/-- `Roarks4side.stress_max(q)`: beta(ratio) * q * (b / t)^2; none when the
interpolant is evaluated outside its knot range (a ValueError in scipy). -/
def Roarks4side.stress_max (r : Roarks4side) (q : ℚ) : Option ℚ :=
  (betaOf r.ratio).map fun bb => bb * q * (r.b / r.t) ^ 2

/-- `Roarks4side.deflection_max(q)`: -alpha(ratio) * q * b^4 / (E * t^3). -/
def Roarks4side.deflection_max (r : Roarks4side) (q : ℚ) : Option ℚ :=
  (alphaOf r.ratio).map fun aa => -aa * q * r.b ^ 4 / (r.E * r.t ^ 3)

/-- `Roarks4side.reaction_max(q)`: gamma(ratio) * q * b. -/
def Roarks4side.reaction_max (r : Roarks4side) (q : ℚ) : Option ℚ :=
  (gammaOf r.ratio).map fun gg => gg * q * r.b

/-- Interpolation skips a leading segment when the input lies beyond its
right knot. -/
lemma interp1d_skip (a b va vb : ℚ) (rest : List (ℚ × ℚ)) (x : ℚ)
    (hab : a ≤ b) (hx : b < x) :
    interp1d ((a, va) :: (b, vb) :: rest) x = interp1d ((b, vb) :: rest) x := by
  simp only [interp1d]
  rw [if_neg (by push_neg; linarith), if_neg (by push_neg; linarith)]

/-- On the Roark knot vector, any input in [5, 1e16] lands on the last
segment and is interpolated linearly between the two final knots. -/
lemma interp1d_roarks_high (y1 y2 y3 y4 y5 y6 y7 y8 y9 y10 r : ℚ)
    (h5 : 5 ≤ r) (h16 : r ≤ 10000000000000000) :
    interp1d [(1, y1), (1.2, y2), (1.4, y3), (1.6, y4), (1.8, y5), (2, y6),
      (3, y7), (4, y8), (5, y9), (10000000000000000, y10)] r =
      some (y9 + (r - 5) * (y10 - y9) / (10000000000000000 - 5)) := by
  rcases eq_or_lt_of_le h5 with heq | hlt
  · subst heq
    norm_num [interp1d, interpSeg]
  · rw [interp1d_skip 1 1.2 _ _ _ r (by norm_num) (by linarith),
      interp1d_skip 1.2 1.4 _ _ _ r (by norm_num) (by linarith),
      interp1d_skip 1.4 1.6 _ _ _ r (by norm_num) (by linarith),
      interp1d_skip 1.6 1.8 _ _ _ r (by norm_num) (by linarith),
      interp1d_skip 1.8 2 _ _ _ r (by norm_num) (by linarith),
      interp1d_skip 2 3 _ _ _ r (by norm_num) (by linarith),
      interp1d_skip 3 4 _ _ _ r (by norm_num) (by linarith),
      interp1d_skip 4 5 _ _ _ r (by norm_num) (by linarith)]
    simp only [interp1d]
    rw [if_neg (by push_neg; linarith), if_pos h16]
    simp [interpSeg]

/-- C5 counterexample: the aspect ratio 1e16 is greater than 5, yet the
interpolated coefficients there are the final-knot row (0.75, 0.1421, 0.5),
not the last finite-ratio row (0.7476, 0.1417, 0.501). -/
theorem C5_counterexample :
    (5 : ℚ) ≤ 10000000000000000 ∧
    betaOf 10000000000000000 = some 0.75 ∧
    alphaOf 10000000000000000 = some 0.1421 ∧
    gammaOf 10000000000000000 = some 0.5 ∧
    (0.75 : ℚ) ≠ 0.7476 ∧ (0.1421 : ℚ) ≠ 0.1417 ∧ (0.5 : ℚ) ≠ 0.501 := by
  refine ⟨by norm_num, ?_, ?_, ?_, by norm_num, by norm_num, by norm_num⟩ <;>
    norm_num [betaOf, alphaOf, gammaOf, roarks_ratios, roarks_beta, roarks_alpha,
      roarks_gamma, interp1d, interpSeg]

/-- C5 (amended): ataspect ratio 1 the coefficients are exactly the first
table row; for every ratio in [5, 1e16] the coefficients are the linear
interpolation between the ratio-5 row and the 1e16 row — approximately, but
not exactly, clamped to the last finite row — and ratios above the 1e16 knot
are outside the interpolation range. -/
theorem C5_high_ratio_interpolated :
    (betaOf 1 = some 0.2874 ∧ alphaOf 1 = some 0.044 ∧ gammaOf 1 = some 0.42) ∧
    (∀ r : ℚ, 5 ≤ r → r ≤ 10000000000000000 →
      betaOf r = some (0.7476 + (r - 5) * (0.75 - 0.7476) / (10000000000000000 - 5)) ∧
      alphaOf r = some (0.1417 + (r - 5) * (0.1421 - 0.1417) / (10000000000000000 - 5)) ∧
      gammaOf r = some (0.501 + (r - 5) * (0.5 - 0.501) / (10000000000000000 - 5))) := by
  constructor
  · refine ⟨?_, ?_, ?_⟩ <;>
      norm_num [betaOf, alphaOf, gammaOf, roarks_ratios, roarks_beta, roarks_alpha,
        roarks_gamma, interp1d, interpSeg]
  · intro r h5 h16
    refine ⟨?_, ?_, ?_⟩
    · show interp1d _ r = _
      rw [show (roarks_ratios.zip roarks_beta : List (ℚ × ℚ)) =
        [(1, 0.2874), (1.2, 0.3762), (1.4, 0.453), (1.6, 0.5172), (1.8, 0.5688),
         (2, 0.6102), (3, 0.7134), (4, 0.741), (5, 0.7476),
         (10000000000000000, 0.75)] from rfl]
      exact interp1d_roarks_high _ _ _ _ _ _ _ _ _ _ r h5 h16
    · show interp1d _ r = _
      rw [show (roarks_ratios.zip roarks_alpha : List (ℚ × ℚ)) =
        [(1, 0.044), (1.2, 0.0616), (1.4, 0.077), (1.6, 0.0906), (1.8, 0.1017),
         (2, 0.111), (3, 0.1335), (4, 0.14), (5, 0.1417),
         (10000000000000000, 0.1421)] from rfl]
      exact interp1d_roarks_high _ _ _ _ _ _ _ _ _ _ r h5 h16
    · show interp1d _ r = _
      rw [show (roarks_ratios.zip roarks_gamma : List (ℚ × ℚ)) =
        [(1, 0.42), (1.2, 0.455), (1.4, 0.478), (1.6, 0.491), (1.8, 0.499),
         (2, 0.503), (3, 0.505), (4, 0.502), (5, 0.501),
         (10000000000000000, 0.5)] from rfl]
      exact interp1d_roarks_high _ _ _ _ _ _ _ _ _ _ r h5 h16

/-- Witness for the amended C5 at the concrete ratio 7. -/
theorem C5_high_ratio_interpolated_witness :
    (5 : ℚ) ≤ 7 ∧ (7 : ℚ) ≤ 10000000000000000 ∧
    betaOf 7 = some (0.7476 + (7 - 5) * (0.75 - 0.7476) / (10000000000000000 - 5)) :=
  ⟨by norm_num, by norm_num,
   (C5_high_ratio_interpolated.2 7 (by norm_num) (by norm_num)).1⟩

/-- C9 counterexample: setting the thickness to ZERO is accepted (the guard
is `value < 0`), contradicting the claim that every non-positive value fails. -/
theorem C9_counterexample :
    Roarks4side.setT ⟨1524, 2438, 71700, 12.7⟩ 0 = .ok ⟨1524, 2438, 71700, 0⟩ := by
  norm_num [Roarks4side.setT]

/-- C9 (amended): setting a dimension, the thickness or the elastic modulus
of a `Roarks4side` to a strictly negative value fails with the corresponding
ValueError and produces no updated state; zero is accepted. -/
theorem C9_negative_setter_rejected (r : Roarks4side) (v : ℚ) (h : v < 0) :
    r.setDimX v = .error "Dimensions must be greater than zero." ∧
    r.setDimY v = .error "Dimensions must be greater than zero." ∧
    r.setT v = .error "Thickness must be greater than zero." ∧
    r.setE v = .error "Elastic modulus must be greater than zero." := by
  refine ⟨?_, ?_, ?_, ?_⟩ <;>
    simp [Roarks4side.setDimX, Roarks4side.setDimY, Roarks4side.setT,
      Roarks4side.setE, h]

/-- Witness for the amended C9 at v = -1. -/
theorem C9_negative_setter_rejected_witness :
    (-1 : ℚ) < 0 ∧
    Roarks4side.setT ⟨1524, 2438, 71700, 12.7⟩ (-1) =
      .error "Thickness must be greater than zero." :=
  ⟨by norm_num,
   (C9_negative_setter_rejected ⟨1524, 2438, 71700, 12.7⟩ (-1) (by norm_num)).2.2.1⟩

/-- The concrete `GlassLiteEquiv` subclass a package was built from.  The
Python object carries this as its runtime type; the `demands` docstring says a
mixture of them in one buildup must be rejected. -/
inductive ETVariant where
  | monolithic
  | nonComposite
  | shearTransferCoef
deriving DecidableEq, Repr

/-- A laminate package as consumed by `demands.IGUWindDemands`: `pid` models
the Python object identity (what `set(buildup)` and the result dicts key on),
`variant` its runtime class, and `E` (MPa), `h_efw` (mm) and the per-ply
stress-thickness dict `h_efs` (ply identity to mm) are the attributes the
solver reads. -/
structure Package where
  pid : ℕ
  variant : ETVariant
  E : ℚ
  h_efw : ℚ
  h_efs : List (ℕ × ℚ)
deriving DecidableEq, Repr

/-- The load-share denominator of the `buildup` setter:
`sum(map(lambda x: x.E * (x.h_efw) ** 3, self.buildup))`. -/
def lsfDenom (buildup : List Package) : ℚ :=
  (buildup.map fun p => p.E * p.h_efw ^ 3).sum

/-- The state of a `demands.IGUWindDemands` instance: wind load (MPa),
plate dimensions (mm), the load-share-factor dict keyed by package identity,
and the result dicts keyed by ply / package identity. -/
structure IGUWindDemands where
  buildup : List Package
  wind_load : ℚ
  dim_x : ℚ
  dim_y : ℚ
  LSF : List (ℕ × ℚ)
  stress : List (ℕ × ℚ)
  deflection : List (ℕ × ℚ)
deriving DecidableEq, Repr

/-- `IGUWindDemands.__init__`: the only buildup validation in the source is
the duplicate-identity check `len(buildup) != len(set(buildup))` (here: the
identity list is duplicate-free); no check of the packages' classes follows,
although the docstring promises a ValueError for a mixture of effective
thickness models.  The `buildup` setter then computes the LSF dict, whose
division raises a ZeroDivisionError for a nonempty buildup of zero total
stiffness, and the dimension setters reject negative values. -/
def mkIGUWindDemands (buildup : List Package) (wind_load dim_x dim_y : ℚ) :
    Except String IGUWindDemands :=
  if ¬ (buildup.map Package.pid).Nodup then
    .error "The buildup must contain unique objects, use deep copy."
  else if buildup ≠ [] ∧ lsfDenom buildup = 0 then
    .error "ZeroDivisionError"
  else if dim_x < 0 then .error "Dimensions must be greater than zero."
  else if dim_y < 0 then .error "Dimensions must be greater than zero."
  else
    .ok
      { buildup := buildup
        wind_load := wind_load
        dim_x := dim_x
        dim_y := dim_y
        LSF := buildup.map fun p => (p.pid, p.E * p.h_efw ^ 3 / lsfDenom buildup)
        stress := []
        deflection := [] }

/-- The inner loop of `IGUWindDemands.solve`: for each (ply, h_efs) pair set
the plate thickness and record the ply stress. -/
def solvePlys : Roarks4side → ℚ → List (ℕ × ℚ) → List (ℕ × ℚ) →
    Except String (Roarks4side × List (ℕ × ℚ))
  | r4s, _, [], stress => .ok (r4s, stress)
  | r4s, load, (plyId, h) :: rest, stress =>
    match r4s.setT h with
    | .error e => .error e
    | .ok r4s2 =>
      match r4s2.stress_max load with
      | none => .error "ValueError: interpolation out of range"
      | some sv => solvePlys r4s2 load rest (dictSet stress plyId sv)

/-- The outer loop of `IGUWindDemands.solve`.  Each iteration evaluates
`Roarks4side(lite.E, self.dim_x, self.dim_y)` — the arguments are passed
POSITIONALLY into the helper signature `(dim_x, dim_y, E, t=1 inch)`, so the
package modulus (a pressure) lands in the `dim_x` slot and the thickness
keeps its 25.4 mm default. -/
def solveLoop (w dx dy : ℚ) (LSF : List (ℕ × ℚ)) :
    List Package → List (ℕ × ℚ) → List (ℕ × ℚ) →
    Except String (List (ℕ × ℚ) × List (ℕ × ℚ))
  | [], stress, defl => .ok (stress, defl)
  | lite :: rest, stress, defl =>
    match mkRoarks4side ⟨lite.E, Dim.pressure⟩ ⟨dx, Dim.length⟩ ⟨dy, Dim.length⟩
        ⟨254 / 10, Dim.length⟩ with
    | .error e => .error e
    | .ok r4s =>
      match LSF.lookup lite.pid with
      | none => .error "KeyError"
      | some lsf =>
        match solvePlys r4s (w * lsf) lite.h_efs stress with
        | .error e => .error e
        | .ok (r4s2, stress2) =>
          match r4s2.setT lite.h_efw with
          | .error e => .error e
          | .ok r4s3 =>
            match r4s3.deflection_max (w * lsf) with
            | none => .error "ValueError: interpolation out of range"
            | some dv => solveLoop w dx dy LSF rest stress2 (dictSet defl lite.pid dv)

/-- `IGUWindDemands.solve`: run the loop over the buildup, overwriting the
stress and deflection dicts. -/
def IGUWindDemands.solve (igu : IGUWindDemands) : Except String IGUWindDemands :=
  match solveLoop igu.wind_load igu.dim_x igu.dim_y igu.LSF igu.buildup
      igu.stress igu.deflection with
  | .error e => .error e
  | .ok (s, d) => .ok { igu with stress := s, deflection := d }

/-- C1: a duplicate-identity buildup is rejected before any computation, but
a buildup mixing a MonolithicMethod package with a ShearTransferCoefMethod
package is ACCEPTED — the constructor performs no formulation-variant check,
contrary to the claim and to its own docstring. -/
theorem C1_mixed_buildup_accepted :
    mkIGUWindDemands [⟨1, .monolithic, 71700, 14.84, [(10, 14.84)]⟩,
        ⟨1, .monolithic, 71700, 14.84, [(10, 14.84)]⟩] 0.0014 1524 2438.4 =
      .error "The buildup must contain unique objects, use deep copy." ∧
    ETVariant.monolithic ≠ ETVariant.shearTransferCoef ∧
    (mkIGUWindDemands [⟨1, .monolithic, 71700, 14.84, [(10, 14.84)]⟩,
        ⟨2, .shearTransferCoef, 71700, 9.533, [(11, 10.2651), (12, 11.4311)]⟩]
      0.0014 1524 2438.4).isOk = true := by
  refine ⟨?_, by simp, ?_⟩ <;>
    norm_num [mkIGUWindDemands, lsfDenom, List.nodup_cons, Except.isOk, Except.toBool]

/-- C2: on the very instance of the module docstring example (two monolithic
packages under a wind load), `solve()` does not complete: its call
`Roarks4side(lite.E, self.dim_x, self.dim_y)` puts the package modulus (a
pressure) into the `dim_x` slot of the helper signature
`(dim_x, dim_y, E, t)`, so the `ureg.check` decorator raises a
DimensionalityError on the first package, before any result is written. -/
theorem C2_solve_always_raises :
    (mkIGUWindDemands [⟨1, .monolithic, 71700, 14.84, [(10, 14.84)]⟩,
        ⟨2, .monolithic, 71700, 14.84, [(20, 14.84)]⟩] 0.0014 1524 2438.4).isOk
      = true ∧
    (mkIGUWindDemands [⟨1, .monolithic, 71700, 14.84, [(10, 14.84)]⟩,
        ⟨2, .monolithic, 71700, 14.84, [(20, 14.84)]⟩] 0.0014 1524 2438.4).bind
      IGUWindDemands.solve = .error "DimensionalityError" := by
  have hd1 : ¬ (Dim.pressure = Dim.length) := fun h => Dim.noConfusion h
  have hd2 : ¬ (Dim.length = Dim.pressure) := fun h => Dim.noConfusion h
  constructor <;>
    norm_num [mkIGUWindDemands, lsfDenom, List.nodup_cons, Except.isOk,
      Except.toBool, Except.bind, IGUWindDemands.solve, solveLoop, mkRoarks4side,
      hd1, hd2]

/-- Association lookup in a dict built by mapping over a duplicate-free
package list finds exactly the mapped value of the package. -/
lemma lookup_map_pid (f : Package → ℚ) (l : List Package)
    (hnd : (l.map Package.pid).Nodup) :
    ∀ p ∈ l, (l.map fun q => (q.pid, f q)).lookup p.pid = some (f p) := by
  induction l with
  | nil => intro p hp; cases hp
  | cons a l ih =>
    intro p hp
    rw [List.map_cons, List.nodup_cons] at hnd
    rcases List.mem_cons.mp hp with rfl | hp'
    · simp [List.lookup]
    · have hne : p.pid ≠ a.pid := fun he =>
        hnd.1 (he ▸ List.mem_map_of_mem Package.pid hp')
      have hbeq : (p.pid == a.pid) = false := beq_eq_false_iff_ne.mpr hne
      simpa [List.lookup, hbeq] using ih hnd.2 p hp'

/-- Summing termwise divisions by a common denominator equals dividing the
sum. -/
lemma sum_map_div_package (l : List Package) (d : ℚ) :
    (l.map fun p => p.E * p.h_efw ^ 3 / d).sum =
      (l.map fun p => p.E * p.h_efw ^ 3).sum / d := by
  induction l with
  | nil => simp
  | cons a l ih => simp [ih, add_div]

/-- C6: for every nonempty buildup accepted by the constructor, the LSF dict
assigns each package its relative bending stiffness
E * h_efw^3 / sum(E * h_efw^3), and the factors sum exactly to 1. -/
theorem C6_load_share_factors (buildup : List Package) (w dx dy : ℚ)
    (igu : IGUWindDemands) (h : mkIGUWindDemands buildup w dx dy = .ok igu)
    (hne : buildup ≠ []) :
    (∀ p ∈ buildup,
      igu.LSF.lookup p.pid = some (p.E * p.h_efw ^ 3 / lsfDenom buildup)) ∧
    (igu.LSF.map Prod.snd).sum = 1 := by
  unfold mkIGUWindDemands at h
  split_ifs at h with h1 h2 h3 h4
  rw [Except.ok.injEq] at h
  subst h
  have hnd : (buildup.map Package.pid).Nodup := h1
  have hden : lsfDenom buildup ≠ 0 := fun h0 => h2 ⟨hne, h0⟩
  constructor
  · intro p hp
    exact lookup_map_pid (fun q => q.E * q.h_efw ^ 3 / lsfDenom buildup)
      buildup hnd p hp
  · show ((buildup.map fun p =>
      (p.pid, p.E * p.h_efw ^ 3 / lsfDenom buildup)).map Prod.snd).sum = 1
    rw [List.map_map]
    have : (Prod.snd ∘ fun p : Package =>
        (p.pid, p.E * p.h_efw ^ 3 / lsfDenom buildup)) =
        fun p : Package => p.E * p.h_efw ^ 3 / lsfDenom buildup := rfl
    rw [this, sum_map_div_package]
    exact div_self hden

/-- A two-package unit-stiffness buildup used to witness C6. -/
def pkgU1 : Package := ⟨1, .monolithic, 1, 1, []⟩

/-- The second package of the C6 witness buildup. -/
def pkgU2 : Package := ⟨2, .monolithic, 1, 1, []⟩

/-- The `IGUWindDemands` state the constructor produces for the C6 witness
buildup: each package carries half the load. -/
def iguU : IGUWindDemands :=
  ⟨[pkgU1, pkgU2], 1, 100, 200, [(1, 1 / 2), (2, 1 / 2)], [], []⟩

/-- Witness for C6 on the concrete two-package buildup. -/
theorem C6_load_share_factors_witness :
    mkIGUWindDemands [pkgU1, pkgU2] 1 100 200 = .ok iguU ∧
    iguU.LSF.lookup pkgU1.pid =
      some (pkgU1.E * pkgU1.h_efw ^ 3 / lsfDenom [pkgU1, pkgU2]) ∧
    (iguU.LSF.map Prod.snd).sum = 1 := by
  have hmk : mkIGUWindDemands [pkgU1, pkgU2] 1 100 200 = .ok iguU := by
    norm_num [mkIGUWindDemands, pkgU1, pkgU2, iguU, lsfDenom, List.nodup_cons]
  refine ⟨hmk, ?_, ?_⟩
  · exact (C6_load_share_factors [pkgU1, pkgU2] 1 100 200 iguU hmk
      (by simp)).1 pkgU1 (by simp)
  · exact (C6_load_share_factors [pkgU1, pkgU2] 1 100 200 iguU hmk
      (by simp)).2

/-- `isinstance(ii, GlassPly)` on a layer. -/
def Layer.isGlass : Layer → Bool
  | .glass _ => true
  | .interlayer _ => false

/-- The elastic modulus of a layer when it is a glass ply. -/
def Layer.glassE : Layer → Option ℚ
  | .glass p => some p.E
  | .interlayer _ => none

/-- The minimum thickness of a layer when it is a glass ply. -/
def Layer.glassTmin : Layer → Option ℚ
  | .glass p => some p.t_min
  | .interlayer _ => none

/-- The thickness attribute a layer exposes: `t_min` for glass, `t` for an
interlayer (used only to state the nonnegativity invariant the `GlassPly`
and `Interlayer` constructors establish). -/
def Layer.t_min0 : Layer → ℚ
  | .glass p => p.t_min
  | .interlayer il => il.t

/-- `NonCompositeMethod._validate`: all elements must be glass plies and the
set of their elastic moduli must have exactly one element. -/
def nonComposite_validate (plys : List Layer) : Bool × String :=
  if plys.all Layer.isGlass then
    if ((plys.filterMap Layer.glassE).dedup).length = 1 then (true, "")
    else (false, "The plys must have the same elastic modulus.")
  else (false, "Method is only formulated for a list of GlassPly.")

/-- The minimum thicknesses the `NonCompositeMethod._calc_equiv_thickness`
generator `(ii.t_min for ii in self.ply)` ranges over; on a validated list
every element is glass, so the filter keeps every ply. -/
def ncPlyTmins (plys : List Layer) : List ℚ :=
  plys.filterMap Layer.glassTmin

/-- `sum(ii.t_min ** n for ii in self.ply)` of `NonCompositeMethod`. -/
def ncSumPow (plys : List Layer) (n : ℕ) : ℚ :=
  ((ncPlyTmins plys).map (· ^ n)).sum

/-- `NonCompositeMethod` effective displacement thickness
`func(3) = sum(t_min ** 3) ** (1/3)` (mm). -/
noncomputable def nc_h_efw (plys : List Layer) : ℝ :=
  ((ncSumPow plys 3 : ℚ) : ℝ) ^ ((1 : ℝ) / 3)

/-- `NonCompositeMethod` effective stress thickness
`func(2) = sum(t_min ** 2) ** (1/2)` (mm). -/
noncomputable def nc_h_efs (plys : List Layer) : ℝ :=
  ((ncSumPow plys 2 : ℚ) : ℝ) ^ ((1 : ℝ) / 2)

/-- The `_h_efs` dict of `NonCompositeMethod`:
`dict(zip(self.ply, itertools.repeat(func(2), len(self.ply))))` — every ply is
assigned the same stress thickness. -/
noncomputable def nc_h_efs_map (plys : List Layer) : List (Layer × ℝ) :=
  plys.map fun l => (l, nc_h_efs plys)

/-- Raising `S ^ (1/n)` back to the n-th power recovers a nonnegative S. -/
lemma rpow_one_div_pow_self (S : ℝ) (hS : 0 ≤ S) (n : ℕ) (hn : n ≠ 0) :
    (S ^ ((1 : ℝ) / n)) ^ n = S := by
  rw [← Real.rpow_natCast (S ^ ((1 : ℝ) / n)) n, ← Real.rpow_mul hS,
    one_div, inv_mul_cancel₀ (Nat.cast_ne_zero.mpr hn), Real.rpow_one]

/-- A lower bound on an n-th root from a lower bound on the n-th power. -/
lemma lt_rpow_one_div (a S : ℝ) (n : ℕ) (hn : n ≠ 0) (hS : 0 ≤ S)
    (h : a ^ n < S) : a < S ^ ((1 : ℝ) / n) := by
  by_contra hc
  push_neg at hc
  have h0 : (0 : ℝ) ≤ S ^ ((1 : ℝ) / n) := Real.rpow_nonneg hS _
  have hle := pow_le_pow_left₀ h0 hc n
  rw [rpow_one_div_pow_self S hS n hn] at hle
  linarith

/-- An upper bound on an n-th root from an upper bound on the n-th power. -/
lemma rpow_one_div_lt (S b : ℝ) (n : ℕ) (hn : n ≠ 0) (hb : 0 ≤ b) (hS : 0 ≤ S)
    (h : S < b ^ n) : S ^ ((1 : ℝ) / n) < b := by
  have hnpos : (0 : ℝ) < (n : ℝ) := by
    exact_mod_cast Nat.pos_of_ne_zero hn
  have hstep : S ^ ((1 : ℝ) / n) < ((b ^ n : ℝ)) ^ ((1 : ℝ) / n) :=
    Real.rpow_lt_rpow hS (by exact_mod_cast h) (one_div_pos.mpr hnpos)
  rwa [← Real.rpow_natCast b n, ← Real.rpow_mul hb,
    mul_one_div_cancel (ne_of_gt hnpos), Real.rpow_one] at hstep

/-- The test buildup of the spec: three annealed plies of nominal 8, 6, 6 mm,
hence minimum thicknesses 7.42, 5.56, 5.56 mm, all at the default modulus. -/
def ncExample : List Layer :=
  [.glass ⟨71700, 7.42, some 8⟩, .glass ⟨71700, 5.56, some 6⟩,
   .glass ⟨71700, 5.56, some 6⟩]

/-- C7: for every ply list the NonComposite method accepts (all glass, one
shared modulus) whose thicknesses are nonnegative, h_efw is the cube root of
the sum of cubed minimum thicknesses, h_efs is the square root of the sum of
squared minimum thicknesses, and the `_h_efs` dict assigns that same value to
every ply; on the 7.42/5.56/5.56 mm example, h_efw is 9.0948 mm and h_efs is
10.8113 mm to within 0.0001 mm. -/
theorem C7_nonComposite_equiv_thickness :
    (∀ plys : List Layer, (nonComposite_validate plys).1 = true →
      (∀ l ∈ plys, 0 ≤ l.t_min0) →
      (0 ≤ nc_h_efw plys ∧
        nc_h_efw plys ^ (3 : ℕ) = ((ncSumPow plys 3 : ℚ) : ℝ)) ∧
      (0 ≤ nc_h_efs plys ∧
        nc_h_efs plys ^ (2 : ℕ) = ((ncSumPow plys 2 : ℚ) : ℝ)) ∧
      (∀ q ∈ nc_h_efs_map plys, q.2 = nc_h_efs plys)) ∧
    |nc_h_efw ncExample - 9.0948| < 0.0001 ∧
    |nc_h_efs ncExample - 10.8113| < 0.0001 := by
  have key : ∀ plys : List Layer, (∀ l ∈ plys, 0 ≤ l.t_min0) →
      ∀ n : ℕ, (0 : ℚ) ≤ ncSumPow plys n := by
    intro plys hpos n
    apply List.sum_nonneg
    intro x hx
    rcases List.mem_map.mp hx with ⟨t, ht, rfl⟩
    rcases List.mem_filterMap.mp ht with ⟨l, hl, hlt⟩
    cases l with
    | glass p =>
      have : p.t_min = t := by simpa [Layer.glassTmin] using hlt
      subst this
      exact pow_nonneg (by simpa [Layer.t_min0] using hpos _ hl) n
    | interlayer il => exact absurd hlt (by simp [Layer.glassTmin])
  constructor
  · intro plys _hv hpos
    have h3 : (0 : ℝ) ≤ ((ncSumPow plys 3 : ℚ) : ℝ) := by
      exact_mod_cast key plys hpos 3
    have h2 : (0 : ℝ) ≤ ((ncSumPow plys 2 : ℚ) : ℝ) := by
      exact_mod_cast key plys hpos 2
    refine ⟨⟨Real.rpow_nonneg h3 _, ?_⟩, ⟨Real.rpow_nonneg h2 _, ?_⟩, ?_⟩
    · exact rpow_one_div_pow_self _ h3 3 (by norm_num)
    · exact rpow_one_div_pow_self _ h2 2 (by norm_num)
    · intro q hq
      rcases List.mem_map.mp hq with ⟨l, _, rfl⟩
      rfl
  · have e3 : (ncSumPow ncExample 3 : ℚ) = 752.27772 := by
      norm_num [ncSumPow, ncPlyTmins, ncExample, Layer.glassTmin,
        List.filterMap_cons, List.filterMap_nil]
    have e2 : (ncSumPow ncExample 2 : ℚ) = 116.8836 := by
      norm_num [ncSumPow, ncPlyTmins, ncExample, Layer.glassTmin,
        List.filterMap_cons, List.filterMap_nil]
    have hw : nc_h_efw ncExample = ((752.27772 : ℝ)) ^ ((1 : ℝ) / 3) := by
      rw [nc_h_efw, e3]; norm_num
    have hs : nc_h_efs ncExample = ((116.8836 : ℝ)) ^ ((1 : ℝ) / 2) := by
      rw [nc_h_efs, e2]; norm_num
    have hwl : (9.0947 : ℝ) < nc_h_efw ncExample := by
      rw [hw]
      exact lt_rpow_one_div 9.0947 752.27772 3 (by norm_num)
        (by norm_num) (by norm_num)
    have hwu : nc_h_efw ncExample < 9.0948 := by
      rw [hw]
      exact rpow_one_div_lt 752.27772 9.0948 3 (by norm_num) (by norm_num)
        (by norm_num) (by norm_num)
    have hsl : (10.8112 : ℝ) < nc_h_efs ncExample := by
      rw [hs]
      exact lt_rpow_one_div 10.8112 116.8836 2 (by norm_num)
        (by norm_num) (by norm_num)
    have hsu : nc_h_efs ncExample < 10.8113 := by
      rw [hs]
      exact rpow_one_div_lt 116.8836 10.8113 2 (by norm_num) (by norm_num)
        (by norm_num) (by norm_num)
    constructor <;> rw [abs_sub_lt_iff] <;> constructor <;> linarith

/-- Witness for C7 on the concrete three-ply example. -/
theorem C7_nonComposite_equiv_thickness_witness :
    (nonComposite_validate ncExample).1 = true ∧
    nc_h_efw ncExample ^ (3 : ℕ) = ((ncSumPow ncExample 3 : ℚ) : ℝ) ∧
    nc_h_efs ncExample ^ (2 : ℕ) = ((ncSumPow ncExample 2 : ℚ) : ℝ) := by
  have hv : (nonComposite_validate ncExample).1 = true := by
    norm_num [nonComposite_validate, ncExample, Layer.isGlass, Layer.glassE,
      List.filterMap_cons, List.filterMap_nil,
      List.dedup_cons_of_mem, List.dedup_cons_of_not_mem]
  have hpos : ∀ l ∈ ncExample, 0 ≤ l.t_min0 := by
    intro l hl
    fin_cases hl <;> norm_num [Layer.t_min0, ncExample]
  exact ⟨hv, (C7_nonComposite_equiv_thickness.1 ncExample hv hpos).1.2,
    (C7_nonComposite_equiv_thickness.1 ncExample hv hpos).2.1.2⟩
